import Mathlib

/-!
Verification of the donation-tracker single-page app in `src/src/App.tsx`.

The file shallowly embeds the data-refresh and presentation pipeline:
the donation record type, the configuration constants, the demo fallback
list, the aggregation step (stable descending sort, total, clamped
progress percentage), the count-up animator's easing formula, and the
fetch/apply state transition of `fetchDonations`.

Amounts are JavaScript numbers holding integer currency values; they are
modelled as `Int`.  Time quantities and the easing arithmetic are
modelled over `ℚ` (exact arithmetic; the source computes with IEEE
doubles whose results on these integer-valued inputs coincide).
-/

/-- Donation record, from the `Donation` interface (App.tsx lines 12-17). -/
structure Donation where
  name : String
  amount : ℤ
  timestamp : String
  receiptUrl : String
deriving DecidableEq

/-- Configuration constants, from the `Config` interface (App.tsx lines 25-30). -/
structure Config where
  APPS_SCRIPT_URL : String
  GOOGLE_FORM_URL : String
  DONATION_GOAL : ℤ
  REFRESH_MS : ℤ
deriving DecidableEq

/-- The shipped configuration object (App.tsx lines 33-38). -/
def CONFIG : Config :=
  { APPS_SCRIPT_URL := "https://script.google.com/macros/s/AKfycbyskWmGGiHqGGk8frH3sLakCFMm-MiHBz2m87FZCzJyaVg6CcCaCcDgghhsFtZzvDDmFA/exec"
    GOOGLE_FORM_URL := "https://docs.google.com/spreadsheets/d/THIS_IS_YOUR_SHEET_ID/edit"
    DONATION_GOAL := 15000000
    REFRESH_MS := 30000 }

/-- The fixed demo fallback list `DEMO` (App.tsx lines 41-72). -/
def DEMO : List Donation :=
  [ { name := "Ahmad Fauzi", amount := 1000000,
      timestamp := "01 Mar 2025, 10:22", receiptUrl := "" },
    { name := "Siti Rahayu", amount := 500000,
      timestamp := "01 Mar 2025, 11:05", receiptUrl := "" },
    { name := "Budi Santoso", amount := 250000,
      timestamp := "01 Mar 2025, 12:14", receiptUrl := "" },
    { name := "Anonymous", amount := 150000,
      timestamp := "01 Mar 2025, 13:30", receiptUrl := "" },
    { name := "Dewi Lestari", amount := 750000,
      timestamp := "01 Mar 2025, 14:01", receiptUrl := "" } ]

/-- The preorder realised by the comparator `(a, b) => b.amount - a.amount`
passed to `Array.prototype.sort` (App.tsx line 237): `a` may stay before `b`
exactly when the comparator is non-positive, i.e. `b.amount ≤ a.amount`. -/
def donationGE (a b : Donation) : Prop := b.amount ≤ a.amount

instance : DecidableRel donationGE :=
  fun a b => inferInstanceAs (Decidable (b.amount ≤ a.amount))

instance : IsTotal Donation donationGE :=
  ⟨fun a b => le_total b.amount a.amount⟩

instance : IsTrans Donation donationGE :=
  ⟨fun _ _ _ hab hbc => le_trans hbc hab⟩

/-- Model of `const sorted = [...donations].sort((a, b) => b.amount - a.amount)`
(App.tsx line 237).  `Array.prototype.sort` is required by the language
specification to be stable, and a stable sort with respect to a total preorder
has a unique result, so stable insertion sort is a faithful model. -/
def sortDonations (l : List Donation) : List Donation :=
  List.insertionSort donationGE l

/-- Model of `const total = sorted.reduce((s, d) => s + d.amount, 0)`
(App.tsx line 238): a left fold over the sorted list. -/
def totalOf (l : List Donation) : ℤ :=
  (sortDonations l).foldl (fun s d => s + d.amount) 0

/-- JavaScript `Math.round`: round half toward positive infinity. -/
def jsRound (x : ℚ) : ℤ := ⌊x + 1 / 2⌋

/-- Model of `const pct = Math.min(100, Math.round((total / CONFIG.DONATION_GOAL) * 100))`
(App.tsx line 239). -/
def progressPct (total goal : ℤ) : ℤ :=
  min 100 (jsRound ((total : ℚ) / (goal : ℚ) * 100))

/-- The progress percentage the app renders for a donation list. -/
def pctOf (l : List Donation) : ℤ :=
  progressPct (totalOf l) CONFIG.DONATION_GOAL

/-- The ease-out-quartic curve `eased = 1 - Math.pow(1 - p, 4)` (App.tsx line 86). -/
def easeOutQuart (p : ℚ) : ℚ := 1 - (1 - p) ^ 4

/-- The value `useCountUp` displays at a given elapsed time (App.tsx lines 84-87):
`p = Math.min(elapsed / duration, 1)`, then `Math.round(eased * target)`. -/
def countUpValue (target : ℤ) (duration elapsed : ℚ) : ℤ :=
  jsRound (easeOutQuart (min (elapsed / duration) 1) * (target : ℚ))

/-- State of one running `useCountUp` animation: the effect closure captures
the target, the duration and `const start = performance.now()` (App.tsx
lines 82-94). -/
structure AnimState where
  target : ℤ
  duration : ℚ
  startTime : ℚ
deriving DecidableEq

/-- Re-running the `useCountUp` effect when its dependency `target` changes
(App.tsx line 94): the cleanup cancels the previous frame callback and the
new closure captures a fresh `start`; nothing of the previous animation state
is read. -/
def restartAnim (_prev : AnimState) (newTarget : ℤ) (duration now : ℚ) : AnimState :=
  { target := newTarget, duration := duration, startTime := now }

/-- The value the animation displays at wall-clock time `now`. -/
def animValue (st : AnimState) (now : ℚ) : ℤ :=
  countUpValue st.target st.duration (now - st.startTime)

/-- The three pieces of component state fetchDonations writes:
`donations`, `loading`, `error` (App.tsx lines 198-200). -/
structure FetchState where
  donations : List Donation
  loading : Bool
  error : Option String
deriving DecidableEq

def setDonations (s : FetchState) (d : List Donation) : FetchState :=
  { s with donations := d }

def setError (s : FetchState) (e : Option String) : FetchState :=
  { s with error := e }

def setLoading (s : FetchState) (b : Bool) : FetchState :=
  { s with loading := b }

/-- How far parsing of an HTTP response body got: `res.json()` either throws
(malformed) or yields an `ApiResponse`-shaped value with a success flag, an
optional `donations` array and an optional `error` string (App.tsx lines 19-23;
absent fields are modelled as `none`). -/
inductive BodyParse where
  | malformed : BodyParse
  | parsed : Bool → Option (List Donation) → Option String → BodyParse
deriving DecidableEq

/-- Outcome of one network attempt: the `fetch` call either rejects
(transport failure) or resolves to a response with an `ok` flag, a status
code and a body. -/
inductive FetchOutcome where
  | transportFailure : FetchOutcome
  | response : Bool → Nat → BodyParse → FetchOutcome
deriving DecidableEq

/-- The generic user-facing message set in the catch block (App.tsx line 225). -/
def errorMessage : String := "Could not load donation data. Will retry automatically."

/-- Result of the try block of `fetchDonations` (App.tsx lines 218-225) up to
the state writes: a transport rejection, `!res.ok`, and a `res.json()` failure
all land in the catch block with the generic message; otherwise the donation
list is `data.donations ?? []`.  The body's success flag and error field are
never consulted. -/
def fetchResult : FetchOutcome → Except String (List Donation)
  | .transportFailure => .error errorMessage
  | .response ok _ body =>
      if ok then
        match body with
        | .malformed => .error errorMessage
        | .parsed _ donations _ => .ok (donations.getD [])
      else .error errorMessage

/-- The non-demo path of `fetchDonations` as a state transition (App.tsx
lines 218-228): on success the try block runs `setDonations(data.donations ?? [])`
then `setError(null)`; on any throw the catch block runs `setError(msg)`;
the finally block always runs `setLoading(false)`. -/
def applyFetch (s : FetchState) (o : FetchOutcome) : FetchState :=
  setLoading
    (match fetchResult o with
     | .ok ds => setError (setDonations s ds) none
     | .error m => setError s (some m))
    false

/-- The demo-mode early return of `fetchDonations` (App.tsx lines 213-217):
`setDonations(DEMO); setLoading(false); return` — the error flag is untouched
and no network request is issued. -/
def fetchDonationsDemo (s : FetchState) : FetchState :=
  setLoading (setDonations s DEMO) false

/-- `isDemo` for a configuration (App.tsx line 210). -/
def isDemo (cfg : Config) : Bool :=
  cfg.APPS_SCRIPT_URL == "YOUR_APPS_SCRIPT_URL"

/-- One whole invocation of `fetchDonations` (App.tsx lines 212-229), given
the outcome the network would produce were it consulted. -/
def fetchStep (cfg : Config) (s : FetchState) (o : FetchOutcome) : FetchState :=
  if isDemo cfg then fetchDonationsDemo s else applyFetch s o

/-! ## Helper lemmas -/

theorem sortDonations_perm (l : List Donation) : (sortDonations l).Perm l :=
  List.perm_insertionSort donationGE l

theorem sortDonations_sorted (l : List Donation) :
    (sortDonations l).Pairwise donationGE :=
  List.sorted_insertionSort donationGE l

theorem sortDonations_stable (l : List Donation) (a : ℤ) :
    (sortDonations l).filter (fun d => d.amount == a) =
      l.filter (fun d => d.amount == a) := by
  set p : Donation → Bool := fun d => d.amount == a with hp
  have hmemp : ∀ d : Donation, p d = true → d.amount = a := by
    intro d hd
    simpa [hp] using hd
  have hpair : (l.filter p).Pairwise donationGE := by
    apply List.pairwise_of_forall_mem_list
    intro x hx y hy
    have hxa := hmemp x (List.of_mem_filter hx)
    have hya := hmemp y (List.of_mem_filter hy)
    show y.amount ≤ x.amount
    rw [hxa, hya]
  have hsub : List.Sublist (l.filter p) (sortDonations l) :=
    List.sublist_insertionSort hpair (List.filter_sublist l)
  have hsub2 : List.Sublist ((l.filter p).filter p) ((sortDonations l).filter p) :=
    hsub.filter p
  rw [List.filter_filter] at hsub2
  have hff : l.filter (fun d => p d && p d) = l.filter p := by
    apply List.filter_congr
    intro x _
    cases p x <;> simp
  rw [hff] at hsub2
  have hperm : ((sortDonations l).filter p).Perm (l.filter p) :=
    (sortDonations_perm l).filter p
  exact (hsub2.eq_of_length hperm.length_eq.symm).symm

theorem foldl_add_amount (l : List Donation) (c : ℤ) :
    l.foldl (fun s d => s + d.amount) c = c + (l.map Donation.amount).sum := by
  induction l generalizing c with
  | nil => simp
  | cons d tl ih => simp [List.foldl_cons, ih, add_assoc]

theorem totalOf_eq_sum (l : List Donation) :
    totalOf l = (l.map Donation.amount).sum := by
  rw [totalOf, foldl_add_amount, zero_add]
  exact ((sortDonations_perm l).map Donation.amount).sum_eq

theorem jsRound_intCast (n : ℤ) : jsRound (n : ℚ) = n := by
  rw [jsRound, add_comm, Int.floor_add_int]
  norm_num

theorem jsRound_zero : jsRound 0 = 0 := by
  have h : ((0 : ℤ) : ℚ) = 0 := by norm_num
  rw [← h, jsRound_intCast]

theorem jsRound_nonneg (x : ℚ) (hx : 0 ≤ x) : 0 ≤ jsRound x :=
  Int.le_floor.mpr (by push_cast; linarith)

theorem jsRound_mono (x y : ℚ) (h : x ≤ y) : jsRound x ≤ jsRound y :=
  Int.floor_le_floor (by linarith)

theorem countUpValue_zero (target : ℤ) (duration : ℚ) :
    countUpValue target duration 0 = 0 := by
  rw [countUpValue, zero_div]
  norm_num [easeOutQuart, jsRound_zero]

theorem countUpValue_at_duration (target : ℤ) (duration : ℚ) (hdur : duration ≠ 0) :
    countUpValue target duration duration = target := by
  rw [countUpValue, div_self hdur]
  norm_num [easeOutQuart, jsRound_intCast]

/-! ## Claim theorems -/

/-- C1: for every donation list, the aggregate's sorted sequence is sorted
descending by amount, is a permutation of the input, and is stable: records
with equal amounts keep their original relative order (the sub-sequence at
each amount equals the input's sub-sequence at that amount).  The aggregation
is a pure function of the input list, so the input is not mutated. -/
theorem App_sorted_spec (l : List Donation) :
    (sortDonations l).Pairwise (fun a b => b.amount ≤ a.amount) ∧
    (sortDonations l).Perm l ∧
    ∀ a : ℤ, (sortDonations l).filter (fun d => d.amount == a) =
      l.filter (fun d => d.amount == a) :=
  ⟨sortDonations_sorted l, sortDonations_perm l, fun a => sortDonations_stable l a⟩

/-- C2: the aggregate total equals the exact integer sum of all amounts, and
is invariant under any permutation of the input list. -/
theorem App_total_spec (l l' : List Donation) (h : l.Perm l') :
    totalOf l = (l.map Donation.amount).sum ∧ totalOf l = totalOf l' := by
  refine ⟨totalOf_eq_sum l, ?_⟩
  rw [totalOf_eq_sum, totalOf_eq_sum]
  exact (h.map Donation.amount).sum_eq

/-- Witness for C2 at a concrete pair of permuted lists. -/
theorem App_total_spec_witness :
    ([⟨"A", 100, "t1", ""⟩, ⟨"B", 50, "t2", ""⟩] : List Donation).Perm
      [⟨"B", 50, "t2", ""⟩, ⟨"A", 100, "t1", ""⟩] ∧
    (totalOf [⟨"A", 100, "t1", ""⟩, ⟨"B", 50, "t2", ""⟩] =
      (([⟨"A", 100, "t1", ""⟩, ⟨"B", 50, "t2", ""⟩] : List Donation).map
        Donation.amount).sum ∧
     totalOf [⟨"A", 100, "t1", ""⟩, ⟨"B", 50, "t2", ""⟩] =
      totalOf [⟨"B", 50, "t2", ""⟩, ⟨"A", 100, "t1", ""⟩]) :=
  ⟨by decide, App_total_spec _ _ (by decide)⟩

/-- C3: for every donation list with non-negative amounts, the rendered
percentage equals min 100 (round (total / goal * 100)) and lies in [0, 100];
in particular a total of 20,000,000 against the shipped goal of 15,000,000
yields 100. -/
theorem App_progress_spec (l : List Donation) (h : ∀ d ∈ l, 0 ≤ d.amount) :
    pctOf l = min 100 (jsRound ((totalOf l : ℚ) / (CONFIG.DONATION_GOAL : ℚ) * 100)) ∧
    0 ≤ pctOf l ∧ pctOf l ≤ 100 ∧
    progressPct 20000000 CONFIG.DONATION_GOAL = 100 := by
  have htot : 0 ≤ totalOf l := by
    rw [totalOf_eq_sum]
    apply List.sum_nonneg
    intro x hx
    obtain ⟨d, hd, rfl⟩ := List.mem_map.mp hx
    exact h d hd
  have harg : 0 ≤ (totalOf l : ℚ) / (CONFIG.DONATION_GOAL : ℚ) * 100 := by
    apply mul_nonneg _ (by norm_num)
    apply div_nonneg (by exact_mod_cast htot)
    norm_num [CONFIG]
  refine ⟨rfl, ?_, ?_, ?_⟩
  · exact le_min (by norm_num) (jsRound_nonneg _ harg)
  · exact min_le_left _ _
  · norm_num [progressPct, CONFIG, jsRound]

/-- Witness for C3 at a one-donation list totalling 20,000,000. -/
theorem App_progress_spec_witness :
    (∀ d ∈ ([⟨"Donor", 20000000, "t", ""⟩] : List Donation), 0 ≤ d.amount) ∧
    (pctOf [⟨"Donor", 20000000, "t", ""⟩] =
      min 100 (jsRound ((totalOf [⟨"Donor", 20000000, "t", ""⟩] : ℚ) /
        (CONFIG.DONATION_GOAL : ℚ) * 100)) ∧
     0 ≤ pctOf [⟨"Donor", 20000000, "t", ""⟩] ∧
     pctOf [⟨"Donor", 20000000, "t", ""⟩] ≤ 100 ∧
     progressPct 20000000 CONFIG.DONATION_GOAL = 100) :=
  ⟨by decide, App_progress_spec _ (by decide)⟩

/-- C4: for a non-negative integer target and positive duration, the count-up
value at elapsed time t equals round (target * (1 - (1 - p)^4)) with
p = min (t / duration) 1; it is 0 at p = 0, exactly the target at p = 1, and
non-decreasing in the elapsed time on [0, duration] and beyond. -/
theorem useCountUp_spec (target : ℤ) (duration t₁ t₂ : ℚ)
    (htarget : 0 ≤ target) (hdur : 0 < duration) (_h0 : 0 ≤ t₁) (h12 : t₁ ≤ t₂) :
    countUpValue target duration t₁ =
      jsRound ((target : ℚ) * (1 - (1 - min (t₁ / duration) 1) ^ 4)) ∧
    countUpValue target duration 0 = 0 ∧
    countUpValue target duration duration = target ∧
    countUpValue target duration t₁ ≤ countUpValue target duration t₂ := by
  refine ⟨?_, countUpValue_zero target duration, countUpValue_at_duration target duration hdur.ne', ?_⟩
  · rw [countUpValue, easeOutQuart, mul_comm]
  · set p₁ : ℚ := min (t₁ / duration) 1 with hp₁
    set p₂ : ℚ := min (t₂ / duration) 1 with hp₂
    have hple : p₁ ≤ p₂ := by
      apply min_le_min _ le_rfl
      exact (div_le_div_iff_of_pos_right hdur).mpr h12
    have hp₂le : p₂ ≤ 1 := min_le_right _ _
    have heased : easeOutQuart p₁ ≤ easeOutQuart p₂ := by
      rw [easeOutQuart, easeOutQuart]
      have hpow : (1 - p₂) ^ 4 ≤ (1 - p₁) ^ 4 :=
        pow_le_pow_left₀ (by linarith) (by linarith) 4
      linarith
    apply jsRound_mono
    apply mul_le_mul_of_nonneg_right heased
    exact_mod_cast htarget

/-- Witness for C4 at target 1,000,000, duration 1800, times 900 and 1800. -/
theorem useCountUp_spec_witness :
    (0 : ℤ) ≤ 1000000 ∧ (0 : ℚ) < 1800 ∧ (0 : ℚ) ≤ 900 ∧ (900 : ℚ) ≤ 1800 ∧
    (countUpValue 1000000 1800 900 =
      jsRound ((1000000 : ℚ) * (1 - (1 - min ((900 : ℚ) / 1800) 1) ^ 4)) ∧
     countUpValue 1000000 1800 0 = 0 ∧
     countUpValue 1000000 1800 1800 = 1000000 ∧
     countUpValue 1000000 1800 900 ≤ countUpValue 1000000 1800 1800) :=
  ⟨by norm_num, by norm_num, by norm_num, by norm_num,
    useCountUp_spec 1000000 1800 900 1800 (by norm_num) (by norm_num)
      (by norm_num) (by norm_num)⟩

/-- C5: a non-demo fetch maps a transport failure, a non-success HTTP status,
or a malformed body all to exactly the generic message
"Could not load donation data. Will retry automatically.", while a success
response whose donations field is absent yields an empty list, not an error. -/
theorem fetchDonations_error_spec :
    fetchResult .transportFailure = .error errorMessage ∧
    (∀ (status : Nat) (body : BodyParse),
      fetchResult (.response false status body) = .error errorMessage) ∧
    (∀ status : Nat,
      fetchResult (.response true status .malformed) = .error errorMessage) ∧
    (∀ (status : Nat) (succ : Bool) (err : Option String),
      fetchResult (.response true status (.parsed succ none err)) =
        .ok ([] : List Donation)) ∧
    errorMessage = "Could not load donation data. Will retry automatically." :=
  ⟨rfl, fun _ _ => rfl, fun _ => rfl, fun _ _ _ => rfl, rfl⟩

/-- C6: applying a fetch result is atomic: a failed fetch keeps the previous
donation list and only sets the error message; a successful fetch replaces the
list wholesale and clears the error; both clear the loading flag. -/
theorem fetchDonations_apply_atomic (s : FetchState) (o : FetchOutcome) :
    (applyFetch s o).loading = false ∧
    applyFetch s o =
      match fetchResult o with
      | .ok ds => { donations := ds, loading := false, error := none }
      | .error m => { donations := s.donations, loading := false, error := some m } := by
  refine ⟨?_, ?_⟩ <;> cases h : fetchResult o <;>
    simp [applyFetch, setLoading, setError, setDonations, h]

/-- C9: the fetcher never inspects the body's success flag or error field:
any ok response with a parseable body applies the donations field (or [] when
absent) and clears the error, regardless of those two fields. -/
theorem fetch_ignores_success_flag (status : Nat) (succ succ' : Bool)
    (ds : Option (List Donation)) (err err' : Option String) (s : FetchState) :
    applyFetch s (.response true status (.parsed succ ds err)) =
      { donations := ds.getD [], loading := false, error := none } ∧
    applyFetch s (.response true status (.parsed succ none err)) =
      { donations := [], loading := false, error := none } ∧
    applyFetch s (.response true status (.parsed succ ds err)) =
      applyFetch s (.response true status (.parsed succ' ds err')) :=
  ⟨rfl, rfl, rfl⟩

/-- C10: the shipped configuration's endpoint is a concrete Apps Script URL,
not the sentinel, so isDemo is false and every fetch takes the network path. -/
theorem shipped_config_not_demo (s : FetchState) (o : FetchOutcome) :
    isDemo CONFIG = false ∧
    CONFIG.APPS_SCRIPT_URL ≠ "YOUR_APPS_SCRIPT_URL" ∧
    fetchStep CONFIG s o = applyFetch s o := by
  have h : isDemo CONFIG = false := by decide
  exact ⟨h, by decide, by simp [fetchStep, h]⟩

/-- C7 counterexample: the demo list sorted descending by amount has
Dewi Lestari (750,000) in second position, not Siti Rahayu (500,000). -/
theorem demo_sorted_second_counterexample :
    ((sortDonations DEMO).map Donation.name).get? 1 = some "Dewi Lestari" ∧
    ¬ ((sortDonations DEMO).map Donation.name).get? 1 = some "Siti Rahayu" := by
  decide

/-- C7 (amended): with the sentinel endpoint the fetch ignores the network
outcome entirely, installs the fixed fallback list, and the displayed order is
the fallback sorted descending by amount: Ahmad Fauzi (1,000,000) first and
Dewi Lestari (750,000) second. -/
theorem demo_mode_spec (cfg : Config) (s : FetchState) (o o' : FetchOutcome)
    (h : cfg.APPS_SCRIPT_URL = "YOUR_APPS_SCRIPT_URL") :
    fetchStep cfg s o = fetchStep cfg s o' ∧
    (fetchStep cfg s o).donations = DEMO ∧
    (sortDonations DEMO).map (fun d => (d.name, d.amount)) =
      [("Ahmad Fauzi", 1000000), ("Dewi Lestari", 750000), ("Siti Rahayu", 500000),
       ("Budi Santoso", 250000), ("Anonymous", 150000)] := by
  have hd : isDemo cfg = true := by simp [isDemo, h]
  refine ⟨by simp [fetchStep, hd], ?_, by decide⟩
  simp [fetchStep, hd, fetchDonationsDemo, setLoading, setDonations]

/-- Witness for C7 at a sentinel-configured endpoint and two distinct outcomes. -/
theorem demo_mode_spec_witness :
    ({ CONFIG with APPS_SCRIPT_URL := "YOUR_APPS_SCRIPT_URL" } : Config).APPS_SCRIPT_URL =
      "YOUR_APPS_SCRIPT_URL" ∧
    (fetchStep { CONFIG with APPS_SCRIPT_URL := "YOUR_APPS_SCRIPT_URL" }
        ⟨[], true, none⟩ .transportFailure =
      fetchStep { CONFIG with APPS_SCRIPT_URL := "YOUR_APPS_SCRIPT_URL" }
        ⟨[], true, none⟩ (.response true 200 .malformed) ∧
     (fetchStep { CONFIG with APPS_SCRIPT_URL := "YOUR_APPS_SCRIPT_URL" }
        ⟨[], true, none⟩ .transportFailure).donations = DEMO ∧
     (sortDonations DEMO).map (fun d => (d.name, d.amount)) =
      [("Ahmad Fauzi", 1000000), ("Dewi Lestari", 750000), ("Siti Rahayu", 500000),
       ("Budi Santoso", 250000), ("Anonymous", 150000)]) :=
  ⟨rfl, demo_mode_spec _ _ _ _ rfl⟩

/-- C8: when the target changes, the animator restarts: the new animation state
is independent of the previous one, its value at the restart instant is 0, and
its value thereafter depends only on the elapsed time since the change. -/
theorem useCountUp_restart_spec (prev prev' : AnimState) (tgt : ℤ) (dur now e : ℚ) :
    restartAnim prev tgt dur now = restartAnim prev' tgt dur now ∧
    animValue (restartAnim prev tgt dur now) now = 0 ∧
    animValue (restartAnim prev tgt dur now) (now + e) = countUpValue tgt dur e := by
  refine ⟨rfl, ?_, ?_⟩
  · show countUpValue tgt dur (now - now) = 0
    rw [sub_self]
    exact countUpValue_zero tgt dur
  · show countUpValue tgt dur (now + e - now) = countUpValue tgt dur e
    congr 1
    ring
